import Mathlib

/-!
Verification development for the insider-trading query pipeline of
`src/lib/insider.js` (the `star` repository).

Shallow embedding conventions:
* JavaScript numbers are modelled by `JsNum`: a finite value (a rational)
  or NaN.  All arithmetic used by the embedded code propagates NaN, and
  comparisons involving NaN are false, as in JavaScript.  Infinities never
  arise on the embedded paths (the only division is guarded by a
  strict-inequality test against zero).
* Fallible steps return `Option` or a dedicated outcome type.
* `conf.js` and `common.js` are required by `insider.js` but are not part
  of the provided sources; every definition that stands in for them is
  marked `Modelled from the spec:` in its doc comment.
-/

/-- A JavaScript number: a finite value (modelled as a rational) or NaN. -/
inductive JsNum where
  | num (q : ℚ)
  | nan
deriving DecidableEq

namespace JsNum

/-- JS addition (`+=` in calcSummary); NaN propagates. -/
def add : JsNum → JsNum → JsNum
  | num a, num b => num (a + b)
  | _, _ => nan

/-- JS multiplication; NaN propagates (also `0 * NaN = NaN`). -/
def mul : JsNum → JsNum → JsNum
  | num a, num b => num (a * b)
  | _, _ => nan

/-- JS subtraction; NaN propagates. -/
def sub : JsNum → JsNum → JsNum
  | num a, num b => num (a - b)
  | _, _ => nan

/-- `Math.abs`; NaN propagates. -/
def abs : JsNum → JsNum
  | num a => num |a|
  | nan => nan

/-- The JS comparison `x > 0`; any comparison with NaN is false. -/
def gtZero : JsNum → Bool
  | num a => decide (0 < a)
  | nan => false

/-- JS division as used in calcSummary.  The source divides only under a
`!== 0` guard, so the finite/zero case is unreachable there; NaN operands
propagate (`NaN / x = NaN`). -/
def div : JsNum → JsNum → JsNum
  | num a, num b => if b = 0 then nan else num (a / b)
  | _, _ => nan

end JsNum

/-- Value of a digit run, most significant digit first. -/
def digitsToNat (ds : List Char) : Nat :=
  ds.foldl (fun a c => a * 10 + (c.toNat - 48)) 0

/-- Unsigned decimal JS literal body: a digit run, optionally followed by a
dot and another digit run, at least one digit overall, nothing trailing. -/
def parseUnsigned (cs : List Char) : Option ℚ :=
  let ip := cs.takeWhile Char.isDigit
  let rest := cs.drop ip.length
  match rest with
  | [] => if ip.isEmpty then none else some ((digitsToNat ip : ℚ))
  | '.' :: r2 =>
      let fp := r2.takeWhile Char.isDigit
      if (r2.drop fp.length).isEmpty && (!ip.isEmpty || !fp.isEmpty) then
        some ((digitsToNat ip : ℚ) + (digitsToNat fp : ℚ) / (10 ^ fp.length : ℚ))
      else none
  | _ => none

/-- Strip leading and trailing whitespace from a character list. -/
def trimWs (cs : List Char) : List Char :=
  ((cs.dropWhile Char.isWhitespace).reverse.dropWhile Char.isWhitespace).reverse

/-- JS string-to-number coercion (`Number(s)` / unary plus on a string),
restricted to the plain decimal forms the embedded data uses: the empty or
all-whitespace string is 0, an optionally signed decimal literal is its
value, anything else is NaN.  (The hex/exponent literal forms of full JS
never occur in the pipeline's cell data and are not modelled.) -/
def jsStrToNum (s : String) : JsNum :=
  match trimWs s.data with
  | [] => .num 0
  | '-' :: r =>
      match parseUnsigned r with
      | some q => .num (-q)
      | none => .nan
  | '+' :: r =>
      match parseUnsigned r with
      | some q => .num q
      | none => .nan
  | cs =>
      match parseUnsigned cs with
      | some q => .num q
      | none => .nan

/-- Unary plus applied to a cheerio `$td.eq(i).html()` result, which is a
string for a present cell and `null` for an absent one: `+null = 0` in JS. -/
def jsPlusOpt : Option String → JsNum
  | none => .num 0
  | some s => jsStrToNum s

/-- `Number.isInteger(Number(code))`, the input check of `queryInsider`. -/
def jsNumberIsInteger (s : String) : Bool :=
  match jsStrToNum s with
  | .num q => q.den == 1
  | .nan => false

/-- The two numeric fields `calcSummary` reads off each (duck-typed)
trading record: `t.CHANGE_NUM` and `t.CURRENT_AVG_PRICE`. -/
structure TradeNums where
  CHANGE_NUM : JsNum
  CURRENT_AVG_PRICE : JsNum
deriving DecidableEq

/-- The four running accumulators of `calcSummary`'s `_.each` pass. -/
structure Accum where
  buyShare : JsNum
  sellShare : JsNum
  buyCost : JsNum
  sellProfit : JsNum
deriving DecidableEq

/-- The zero-initialised accumulators of `calcSummary`. -/
def accum0 : Accum := ⟨.num 0, .num 0, .num 0, .num 0⟩

/-- One iteration of `calcSummary`'s pass: positive `CHANGE_NUM` feeds the
buy accumulators, everything else (negative, zero, or NaN: `NaN > 0` is
false) feeds the sell accumulators with absolute values. -/
def accumStep (a : Accum) (t : TradeNums) : Accum :=
  if t.CHANGE_NUM.gtZero then
    { a with buyShare := a.buyShare.add t.CHANGE_NUM,
             buyCost := a.buyCost.add (t.CHANGE_NUM.mul t.CURRENT_AVG_PRICE) }
  else
    { a with sellShare := a.sellShare.add t.CHANGE_NUM.abs,
             sellProfit := a.sellProfit.add ((t.CHANGE_NUM.mul t.CURRENT_AVG_PRICE).abs) }

/-- The numeric summary as it stands right after the derived fields of
`calcSummary` are computed and before the `numeral` formatting mutations.
`buyPrice`/`sellPrice` are `none` for the string sentinel `'N/A'`. -/
structure SummaryRaw where
  buyShare : JsNum
  sellShare : JsNum
  buyPrice : Option JsNum
  sellPrice : Option JsNum
  buyCost : JsNum
  sellProfit : JsNum
  netBuyShare : JsNum
  netBuyCost : JsNum
deriving DecidableEq

/-- The derived-field block of `calcSummary`: average prices under the
`!== 0` guards (NaN passes the guard, since `NaN !== 0`), then the net
fields from the still-numeric accumulators. -/
def deriveSummary (a : Accum) : SummaryRaw :=
  { buyShare := a.buyShare,
    sellShare := a.sellShare,
    buyPrice := if a.buyShare ≠ JsNum.num 0 then some (a.buyCost.div a.buyShare) else none,
    sellPrice := if a.sellShare ≠ JsNum.num 0 then some (a.sellProfit.div a.sellShare) else none,
    buyCost := a.buyCost,
    sellProfit := a.sellProfit,
    netBuyShare := a.buyShare.sub a.sellShare,
    netBuyCost := a.buyCost.sub a.sellProfit }

/-- `calcSummary` up to (excluding) the formatting mutations: `null` on an
empty record list, otherwise the fold of the classification pass followed
by the derived fields. -/
def calcSummaryRaw (ts : List TradeNums) : Option SummaryRaw :=
  if ts.isEmpty then none else some (deriveSummary (ts.foldl accumStep accum0))

/-- Group a reversed digit list in blocks of three, inserting the numeral
group separator; the counter cycles through positions 1..3 per block. -/
def groupRevAux : List Char → Nat → List Char
  | [], _ => []
  | c :: rest, k =>
      if k = 3 then c :: (if rest.isEmpty then [] else ',' :: groupRevAux rest 1)
      else c :: groupRevAux rest (k + 1)

/-- Decimal rendering of a natural number with comma thousand grouping. -/
def formatNatGrouped (n : Nat) : String :=
  String.mk ((groupRevAux (toString n).data.reverse 1).reverse)

/-- Modelled from the spec: `numeral(x).format(...)` with the format
strings of the missing `conf.js` (`ft.common`, `ft.flot`, `ft.money`).
The spec fixes only that monetary and share totals get locale-appropriate
thousand grouping, modelled as comma grouping of the integer part; every
value the claims evaluate this on is an integer. -/
def formatGrouped : JsNum → String
  | .nan => "NaN"
  | .num q => (if q < 0 then "-" else "") ++ formatNatGrouped (Rat.floor q).natAbs

/-- The summary object as `calcSummary` actually returns it: every field
overwritten with its `numeral(...).format(...)` display string. -/
structure Summary where
  buyShare : String
  sellShare : String
  buyPrice : String
  sellPrice : String
  buyCost : String
  sellProfit : String
  netBuyShare : String
  netBuyCost : String
deriving DecidableEq

/-- The formatting mutations at the end of `calcSummary`; the `'N/A'`
price sentinel passes through to the rendered summary. -/
def formatSummary (r : SummaryRaw) : Summary :=
  { buyShare := formatGrouped r.buyShare,
    sellShare := formatGrouped r.sellShare,
    buyPrice := match r.buyPrice with | none => "N/A" | some x => formatGrouped x,
    sellPrice := match r.sellPrice with | none => "N/A" | some x => formatGrouped x,
    buyCost := formatGrouped r.buyCost,
    sellProfit := formatGrouped r.sellProfit,
    netBuyShare := formatGrouped r.netBuyShare,
    netBuyCost := formatGrouped r.netBuyCost }

/-- `calcSummary` as exported: empty input gives `null`, otherwise the
accumulate/derive pass followed by the in-place formatting. -/
def calcSummary (ts : List TradeNums) : Option Summary :=
  (calcSummaryRaw ts).map formatSummary

/-- The record `getTradings` builds from one `tr.cls-data-tr` row: twelve
positional cells, four of them coerced with unary plus.  Field names
follow the source (`RATIO_CELL`, `INSIDER`, `RELATION` stand for the
source's `_RATIO`, `_INSIDER`, `_RELATION`). -/
structure TradingSZ where
  COMPANY_CODE : Option String
  COMPANY_ABBR : Option String
  NAME : Option String
  CHANGE_DATE : Option String
  CHANGE_NUM : JsNum
  CURRENT_AVG_PRICE : JsNum
  CHANGE_REASON : Option String
  RATIO_CELL : JsNum
  HOLDSTOCK_NUM : JsNum
  INSIDER : Option String
  DUTY : Option String
  RELATION : Option String
deriving DecidableEq

/-- One row of the Shenzhen HTML table as a list of cell strings;
`$td.eq(i).html()` is the cell at index `i`, or `null` past the end. -/
def rowToTrading (row : List String) : TradingSZ :=
  { COMPANY_CODE := row.get? 0,
    COMPANY_ABBR := row.get? 1,
    NAME := row.get? 2,
    CHANGE_DATE := row.get? 3,
    CHANGE_NUM := jsPlusOpt (row.get? 4),
    CURRENT_AVG_PRICE := jsPlusOpt (row.get? 5),
    CHANGE_REASON := row.get? 6,
    RATIO_CELL := jsPlusOpt (row.get? 7),
    HOLDSTOCK_NUM := jsPlusOpt (row.get? 8),
    INSIDER := row.get? 9,
    DUTY := row.get? 10,
    RELATION := row.get? 11 }

/-- `getTradings`: map every data row of the document to a record. -/
def getTradings (rows : List (List String)) : List TradingSZ :=
  rows.map rowToTrading

/-- Projection to the two fields `calcSummary` reads. -/
def TradingSZ.toNums (t : TradingSZ) : TradeNums :=
  ⟨t.CHANGE_NUM, t.CURRENT_AVG_PRICE⟩

/-- The line-146 display of `HOLDSTOCK_NUM` in `displayTradings` for the
Shenzhen market: `_.isNaN(x) ? '-' : numeral(x).format()`. -/
def displayHoldstock : JsNum → String
  | .nan => "-"
  | .num q => formatGrouped (.num q)

/-- A JSON value in a Shanghai JSONP record field (when present). -/
inductive JVal where
  | jnull
  | jstr (s : String)
  | jnum (q : ℚ)
deriving DecidableEq

/-- The three numeric source fields of one Shanghai JSONP array element,
before the coercions in `queryInsider`; `none` is an absent key
(`undefined`).  The remaining fields of the element are strings that pass
through the normalization untouched and play no part in any claim. -/
structure TradingSHRaw where
  CHANGE_NUM : Option JVal
  HOLDSTOCK_NUM : Option JVal
  CURRENT_AVG_PRICE : Option JVal
deriving DecidableEq

/-- The same record after the coercions in `queryInsider`. -/
structure TradingSH where
  CHANGE_NUM : JsNum
  HOLDSTOCK_NUM : JsNum
  CURRENT_AVG_PRICE : JsNum
deriving DecidableEq

/-- JS numeric coercion (unary plus) of a possibly-absent field value:
`+undefined = NaN`, `+null = 0`, numbers stay, strings go through string
coercion. -/
def jsToNum : Option JVal → JsNum
  | none => .nan
  | some .jnull => .num 0
  | some (.jnum q) => .num q
  | some (.jstr s) => jsStrToNum s

/-- The `x || 0` fallback: NaN (falsy) becomes 0, finite values stay
(0 stays 0 either way). -/
def jsOrZero : JsNum → JsNum
  | .nan => .num 0
  | .num q => .num q

/-- The Shanghai-branch normalization loop body of `queryInsider`:
`t.CHANGE_NUM = +t.CHANGE_NUM`, `t.HOLDSTOCK_NUM = +t.HOLDSTOCK_NUM`,
`t.CURRENT_AVG_PRICE = +t.CURRENT_AVG_PRICE || 0`. -/
def normalizeSH (t : TradingSHRaw) : TradingSH :=
  { CHANGE_NUM := jsToNum t.CHANGE_NUM,
    HOLDSTOCK_NUM := jsToNum t.HOLDSTOCK_NUM,
    CURRENT_AVG_PRICE := jsOrZero (jsToNum t.CURRENT_AVG_PRICE) }

/-- Projection to the two fields `calcSummary` reads. -/
def TradingSH.toNums (t : TradingSH) : TradeNums :=
  ⟨t.CHANGE_NUM, t.CURRENT_AVG_PRICE⟩

/-- Modelled from the spec: the fixed prefix-to-market table `conf.market`
of the missing `conf.js`.  Per the spec and the codes in the source's own
usage examples: Shenzhen main board (000), SME board (002) and ChiNext
(300) route to the `sz` handling, the Shanghai main board prefixes
(600/601/603) to `sh`; every other prefix is unmapped. -/
def confMarket (p3 : String) : Option String :=
  if p3 = "000" ∨ p3 = "002" ∨ p3 = "300" then some "sz"
  else if p3 = "600" ∨ p3 = "601" ∨ p3 = "603" then some "sh"
  else none

/-- Modelled from the spec: the per-prefix catalog ids `option.catalog` of
the missing `conf.js` are opaque passthrough parameters; they are
represented here by the prefix itself. -/
def confCatalog (p3 : String) : Option String :=
  if p3 = "000" ∨ p3 = "002" ∨ p3 = "300" then some p3 else none

/-- The per-market template fields of `conf.insider[market]` that the
embedded control flow reads. -/
structure MarketTemplate where
  span : Option String
deriving DecidableEq

/-- Modelled from the spec: each market template supplies a default span
(`option.span`); the concrete value is not in the provided sources and no
claim depends on it (claim witnesses pass an explicit span). -/
def confInsider (m : String) : MarketTemplate :=
  if m = "sz" ∨ m = "sh" then { span := some "6" } else { span := none }

/-- The command-line option slots `getQueryOption` reads from `cmd`. -/
structure CmdOpts where
  span : Option String
  page : Option Int
  fromOpt : Option String
  toOpt : Option String
deriving DecidableEq

/-- JS `a || b` on option strings, with the empty string falsy. -/
def jsOrStr (a b : Option String) : Option String :=
  match a with
  | some s => if s = "" then b else some s
  | none => b

/-- JS `cmd.page || 1`: absent or 0 falls back to 1. -/
def jsOrPage : Option Int → Int
  | some n => if n = 0 then 1 else n
  | none => 1

/-- JS `parseInt(s)` in base 10: skip leading whitespace, optional sign,
read the leading digit run and ignore any trailing text (`parseInt('3m')`
is 3); `none` is NaN (no leading digits at all). -/
def jsParseInt (s : String) : Option Int :=
  let core : List Char → Option Nat := fun l =>
    let ds := l.takeWhile Char.isDigit
    if ds.isEmpty then none else some (digitsToNat ds)
  match s.data.dropWhile Char.isWhitespace with
  | '-' :: r => (core r).map (fun n => -(n : Int))
  | '+' :: r => (core r).map (fun n => (n : Int))
  | l => (core l).map (fun n => (n : Int))

/-- The span clamp of `getQueryOption`: `span = span > 24 ? 24 : span;
span = span < 1 ? 1 : span`.  Both comparisons are false on NaN, so NaN
(`none`) passes through unclamped. -/
def clampSpan : Option Int → Option Int
  | none => none
  | some n =>
      let s1 : Int := if n > 24 then 24 else n
      some (if s1 < 1 then 1 else s1)

/-- How a begin/end query-string date field got its value. -/
inductive DateSetting where
  | unset
  | today
  | todayMinusMonths (s : Option Int)
  | explicitDate (d : String)
deriving DecidableEq

/-- Split a character list at every slash. -/
def splitSlash : List Char → List (List Char)
  | [] => [[]]
  | '/' :: rest => [] :: splitSlash rest
  | c :: rest =>
      match splitSlash rest with
      | [] => [[c]]
      | g :: gs => (c :: g) :: gs

/-- Modelled from the spec: `moment(x, ft.inDate).isValid()` where
`ft.inDate` lives in the missing `conf.js`; the spec fixes a day-month-year
input pattern, modelled as `D/M/YYYY` with in-range day and month. -/
def momentValidInDate (s : String) : Bool :=
  match splitSlash s.data with
  | [d, m, y] =>
      !d.isEmpty && !m.isEmpty && d.all Char.isDigit && m.all Char.isDigit &&
      y.all Char.isDigit && y.length == 4 &&
      decide (1 ≤ digitsToNat d) && decide (digitsToNat d ≤ 31) &&
      decide (1 ≤ digitsToNat m) && decide (digitsToNat m ≤ 12)
  | _ => false

/-- One `if(cmd.from)` / `if(cmd.to)` override block of `getQueryOption`:
skipped when the option is absent or empty (falsy); a valid date replaces
the current setting; an invalid one is the PARAM_ERROR early return
(`none`). -/
def applyUserDate (cur : DateSetting) (inp : Option String) : Option DateSetting :=
  match inp with
  | none => some cur
  | some f =>
      if f = "" then some cur
      else if momentValidInDate f then some (DateSetting.explicitDate f) else none

/-- The parts of the built request options that the claims observe. -/
structure QueryOption where
  market : String
  catalog : Option String
  page : Option Int
  qsBegin : DateSetting
  qsEnd : DateSetting
deriving DecidableEq

/-- Outcome of `getQueryOption`.  `paramError` is the
`console.error(MSG.PARAM_ERROR); return false` path; `crash` is the
uncaught TypeError raised when the market prefix is unmapped and
`conf.insider[undefined].span` is read. -/
inductive QueryOutcome where
  | ok (opt : QueryOption)
  | paramError
  | crash
deriving DecidableEq

/-- The `if(spanM)` block of `getQueryOption`: a truthy span string sets
the end date to today and the begin date to today minus the clamped
`parseInt` of the span. -/
def spanDates : Option String → DateSetting × DateSetting
  | none => (DateSetting.unset, DateSetting.unset)
  | some sm =>
      if sm = "" then (DateSetting.unset, DateSetting.unset)
      else (DateSetting.todayMinusMonths (clampSpan (jsParseInt sm)), DateSetting.today)

/-- The body of `getQueryOption` once the market template has been found:
span resolution, then the two user-date override blocks in source order
(an invalid `from` returns before `to` is examined). -/
def buildQueryOption (market p3 : String) (c : CmdOpts) : QueryOutcome :=
  let bd := spanDates (jsOrStr c.span (confInsider market).span)
  match applyUserDate bd.1 c.fromOpt with
  | none => QueryOutcome.paramError
  | some b1 =>
    match applyUserDate bd.2 c.toOpt with
    | none => QueryOutcome.paramError
    | some e1 =>
        QueryOutcome.ok
          { market := market,
            catalog := if market = "sz" then confCatalog p3 else none,
            page := if market = "sz" then some (jsOrPage c.page) else none,
            qsBegin := b1,
            qsEnd := e1 }

/-- `getQueryOption` of `insider.js`: market lookup by 3-character prefix
(an unmapped prefix makes `conf.insider[market]` undefined and the next
property read a crash), then the query-string construction. -/
def getQueryOption (c : CmdOpts) (code : String) : QueryOutcome :=
  match confMarket (String.take code 3) with
  | none => QueryOutcome.crash
  | some market => buildQueryOption market (String.take code 3) c

/-- What `queryInsider` does before handing control to the transport:
`inputError` is the `INPUT_ERROR` early return, `crash` the propagated
TypeError, and `requestIssued o` the call `request(option, callback)` —
with `o = none` when `getQueryOption` returned `false` and the literal
`false` is what gets passed to `request`. -/
inductive PrepResult where
  | inputError
  | crash
  | requestIssued (opt : Option QueryOption)
deriving DecidableEq

/-- The pre-transport phase of `queryInsider`: the integer check on the
code, then `getQueryOption`, whose result — even the `false` of the
param-error path — is passed straight to `request`. -/
def queryInsiderPrep (c : CmdOpts) (code : String) : PrepResult :=
  if !jsNumberIsInteger code then PrepResult.inputError
  else
    match getQueryOption c code with
    | QueryOutcome.ok opt => PrepResult.requestIssued (some opt)
    | QueryOutcome.paramError => PrepResult.requestIssued none
    | QueryOutcome.crash => PrepResult.crash

/-- Follows the spec's words (for the refinement comparison of claim C4,
not a source translation): `resolveMarket(code) -> MarketId |
Fails(UnknownMarket)`. -/
inductive SpecMarketResult where
  | ok (m : String)
  | unknownMarket
deriving DecidableEq

/-- Follows the spec's words: prefix lookup that fails explicitly with
`UnknownMarket` on an unmapped prefix. -/
def specResolveMarket (code : String) : SpecMarketResult :=
  match confMarket (String.take code 3) with
  | some m => SpecMarketResult.ok m
  | none => SpecMarketResult.unknownMarket

/-- The concrete two-record scenario of the spec, as the pair of fields
`calcSummary` reads: +1000 shares at 10, then -400 shares at 12. -/
def ex1 : List TradeNums := [⟨JsNum.num 1000, JsNum.num 10⟩, ⟨JsNum.num (-400), JsNum.num 12⟩]

/-- Command options with only a span supplied, the span not parseable. -/
def cmdAbc : CmdOpts := ⟨some "abc", none, none, none⟩

/-- Command options with nothing supplied. -/
def cmdNone : CmdOpts := ⟨none, none, none, none⟩

/-- Command options with a 3-month span supplied. -/
def cmd3 : CmdOpts := ⟨some "3", none, none, none⟩

/-- Command options with an unparseable `from` date supplied. -/
def cmdBadFrom : CmdOpts := ⟨none, none, some "garbage", none⟩

/-- The query options built for code 000060 with a 3-month span. -/
def optSZ : QueryOption :=
  ⟨"sz", some "000", some 1, DateSetting.todayMinusMonths (some 3), DateSetting.today⟩

/-- Two 12-cell Shenzhen rows agreeing on cells 0 to 10 and differing in
cell 11 only. -/
def rowA : List String := ["a", "b", "c", "d", "5", "6", "e", "7", "8", "f", "g", "X"]

/-- See `rowA`. -/
def rowB : List String := ["a", "b", "c", "d", "5", "6", "e", "7", "8", "f", "g", "Y"]

/-- A well-formed 12-cell Shenzhen row. -/
def rowC : List String :=
  ["000001", "AB", "N", "2015/01/02", "100", "5", "r", "1.2", "200", "I", "D", "R"]

/-- `rowC` with a 13th cell appended. -/
def rowD : List String := rowC ++ ["extra"]

/-- A Shenzhen row whose change-shares cell (index 4) is not numeric. -/
def rowBad : List String :=
  ["000001", "AB", "N", "2015-01-01", "abc", "5", "r", "1.2", "100", "I", "D", "R"]

/-- A Shanghai source record with a numeric-string change count, numeric
holding count, and a null avg price. -/
def exSH : TradingSHRaw := ⟨some (JVal.jnum 300), some JVal.jnull, some JVal.jnull⟩

/-- A Shanghai source record with non-numeric change and holding counts
and an absent avg price. -/
def exSHbad : TradingSHRaw := ⟨some (JVal.jstr "abc"), some (JVal.jstr "xy"), none⟩

theorem JsNum.add_num_zero (x : JsNum) : x.add (JsNum.num 0) = x := by
  cases x <;> simp [JsNum.add]

theorem JsNum.add_nan (x : JsNum) : x.add JsNum.nan = JsNum.nan := by
  cases x <;> rfl

theorem JsNum.nan_mul (x : JsNum) : JsNum.mul JsNum.nan x = JsNum.nan := by
  cases x <;> rfl

theorem clampSpan_some (n : Int) : clampSpan (some n) = some (max 1 (min 24 n)) := by
  simp only [clampSpan]
  congr 1
  split_ifs <;> omega

/-- Claim C1 counterexample: on the two-record scenario the Summary
Calculator does not return raw numeric values — `calcSummary` itself
overwrites every field with its locale-grouped display string, so the
returned `buyShare` is the grouped string for 1000 rather than its plain
decimal rendering. -/
theorem calcSummary_ex_not_raw :
    (calcSummary ex1).map Summary.buyShare = some "1,000" ∧ ("1,000" : String) ≠ "1000" := by
  refine ⟨?_, by decide⟩
  norm_num [calcSummary, calcSummaryRaw, ex1, accumStep, deriveSummary, accum0, JsNum.add,
            JsNum.mul, JsNum.sub, JsNum.abs, JsNum.gtZero, JsNum.div, formatSummary]
  decide

/-- Claim C1 (amended): on input `[{shares:+1000, price:10},
{shares:-400, price:12}]` the Calculator computes the numeric aggregates
buyShares 1000, buyCost 10000, buyAvgPrice 10, sellShares 400,
sellProceeds 4800, sellAvgPrice 12, netShares 600, netCost 5200, and then
itself formats them with locale grouping before returning. -/
theorem calcSummary_ex_values :
    calcSummaryRaw ex1 =
      some ⟨JsNum.num 1000, JsNum.num 400, some (JsNum.num 10), some (JsNum.num 12),
            JsNum.num 10000, JsNum.num 4800, JsNum.num 600, JsNum.num 5200⟩ ∧
    calcSummary ex1 = some ⟨"1,000", "400", "10", "12", "10,000", "4,800", "600", "5,200"⟩ := by
  constructor
  · norm_num [calcSummaryRaw, ex1, accumStep, deriveSummary, accum0, JsNum.add,
              JsNum.mul, JsNum.sub, JsNum.abs, JsNum.gtZero, JsNum.div]
  · norm_num [calcSummary, calcSummaryRaw, ex1, accumStep, deriveSummary, accum0, JsNum.add,
              JsNum.mul, JsNum.sub, JsNum.abs, JsNum.gtZero, JsNum.div, formatSummary]
    decide

/-- Claim C2: on the empty record list `calcSummary` returns null — the
absence of a summary, not a zeroed summary object (both before and after
the formatting stage). -/
theorem calcSummary_empty_none :
    calcSummary ([] : List TradeNums) = none ∧ calcSummaryRaw ([] : List TradeNums) = none :=
  ⟨rfl, rfl⟩

/-- Claim C3 counterexample: for the non-numeric span input "abc",
`parseInt` yields NaN, both clamp comparisons are false on NaN, and the
begin date is computed from an unclamped NaN span (`none`), not from any
integer in [1, 24]. -/
theorem span_nan_escapes_clamp :
    clampSpan (jsParseInt "abc") = none ∧
    getQueryOption cmdAbc "000060" =
      QueryOutcome.ok ⟨"sz", some "000", some 1, DateSetting.todayMinusMonths none,
                       DateSetting.today⟩ := by
  decide

/-- Claim C3 (amended): for every span input on which `parseInt` yields a
number (rather than NaN), the clamped span satisfies 1 ≤ s ≤ 24; a span
input with no leading digits yields NaN, which escapes the clamp. -/
theorem span_clamped_when_parsable (s : String) (n : Int) (h : jsParseInt s = some n) :
    ∃ m : Int, clampSpan (jsParseInt s) = some m ∧ 1 ≤ m ∧ m ≤ 24 := by
  rw [h, clampSpan_some]
  exact ⟨_, rfl, le_max_left _ _, by omega⟩

/-- Witness for `span_clamped_when_parsable` at the out-of-range input
"99", which parses and clamps to 24. -/
theorem span_clamped_when_parsable_witness :
    ∃ m : Int, clampSpan (jsParseInt "99") = some m ∧ 1 ≤ m ∧ m ≤ 24 :=
  span_clamped_when_parsable "99" 99 (by decide)

/-- Claim C4 counterexample: for code "999999" (an unmapped prefix) the
spec-side resolver prescribes an explicit UnknownMarket failure, but the
embedded code crashes with the TypeError raised by reading a property of
`conf.insider[undefined]` — there is no UnknownMarket reporting path. -/
theorem unknown_market_crashes_not_explicit :
    specResolveMarket "999999" = SpecMarketResult.unknownMarket ∧
    getQueryOption cmdNone "999999" = QueryOutcome.crash ∧
    queryInsiderPrep cmdNone "999999" = PrepResult.crash := by
  decide

/-- Claim C4 (amended): an unmapped 3-digit prefix always makes
`getQueryOption` crash (it never silently defaults to a market and never
builds request options), and for a mapped prefix every successfully built
option carries exactly the market id of the fixed table. -/
theorem unknown_market_crash_known_market_stable (c : CmdOpts) (code : String) :
    (confMarket (String.take code 3) = none → getQueryOption c code = QueryOutcome.crash) ∧
    (∀ m opt, confMarket (String.take code 3) = some m →
      getQueryOption c code = QueryOutcome.ok opt → opt.market = m) := by
  constructor
  · intro h
    simp [getQueryOption, h]
  · intro m opt hm hok
    simp only [getQueryOption, hm] at hok
    simp only [buildQueryOption] at hok
    split at hok
    · exact absurd hok (by simp)
    · split at hok
      · exact absurd hok (by simp)
      · injection hok with h2
        rw [← h2]

/-- Witness for `unknown_market_crash_known_market_stable`: the unmapped
prefix 999 crashes; the mapped prefix 000 yields market "sz". -/
theorem unknown_market_crash_known_market_stable_witness :
    getQueryOption cmdNone "999999" = QueryOutcome.crash ∧ optSZ.market = "sz" :=
  ⟨(unknown_market_crash_known_market_stable cmdNone "999999").1 (by decide),
   (unknown_market_crash_known_market_stable cmd3 "000060").2 "sz" optSZ (by decide) (by decide)⟩

/-- Claim C5 at its failing input: with an unparseable `from` date,
`getQueryOption` reports the parameter error and returns false, yet
`queryInsider` does not abort — it passes the `false` straight to the
transport call (`requestIssued none`), so the pipeline is not stopped at
the point of detection as the claim requires. -/
theorem invalid_from_reaches_request_call :
    getQueryOption cmdBadFrom "000060" = QueryOutcome.paramError ∧
    queryInsiderPrep cmdBadFrom "000060" = PrepResult.requestIssued none := by
  decide

/-- Claim C6 counterexample: two rows that agree on cell positions 0
through 10 and differ only in cell 11 parse to different records, so the
Variant A parser does read a cell position beyond index 10 (the source
maps `_RELATION` from cell 11 — twelve cells, not eleven). -/
theorem getTradings_reads_cell_eleven :
    rowA.take 11 = rowB.take 11 ∧ getTradings [rowA] ≠ getTradings [rowB] := by
  decide

/-- Claim C6 (amended): the Variant A parser maps cell positions 0
through 11 (twelve ordered cells) positionally onto the record fields,
with the relation field at position 11, and reads no cell position beyond
index 11. -/
theorem getTradings_positional_map (r1 r2 : List String)
    (h : ∀ i, i ≤ 11 → r1.get? i = r2.get? i) :
    rowToTrading r1 = rowToTrading r2 ∧ (rowToTrading r1).RELATION = r1.get? 11 := by
  constructor
  · simp only [rowToTrading]
    rw [h 0 (by omega), h 1 (by omega), h 2 (by omega), h 3 (by omega), h 4 (by omega),
        h 5 (by omega), h 6 (by omega), h 7 (by omega), h 8 (by omega), h 9 (by omega),
        h 10 (by omega), h 11 (by omega)]
  · rfl

/-- Witness for `getTradings_positional_map`: a 12-cell row and the same
row with a 13th cell appended parse identically. -/
theorem getTradings_positional_map_witness :
    rowToTrading rowC = rowToTrading rowD ∧ (rowToTrading rowC).RELATION = rowC.get? 11 :=
  getTradings_positional_map rowC rowD (by decide)

/-- Claim C7: a Variant B record whose avg-price source field is null or
absent normalizes to avg price 0, and in the summary pass such a record
leaves buyCost and sellProceeds unchanged while still contributing its
(numeric) share count to the matching share total. -/
theorem variantB_null_price_zero_contribution (t : TradingSHRaw) (c : ℚ) (a : Accum)
    (hp : t.CURRENT_AVG_PRICE = none ∨ t.CURRENT_AVG_PRICE = some JVal.jnull)
    (hc : (normalizeSH t).CHANGE_NUM = JsNum.num c) :
    (normalizeSH t).CURRENT_AVG_PRICE = JsNum.num 0 ∧
    (accumStep a (normalizeSH t).toNums).buyCost = a.buyCost ∧
    (accumStep a (normalizeSH t).toNums).sellProfit = a.sellProfit ∧
    (0 < c → (accumStep a (normalizeSH t).toNums).buyShare = a.buyShare.add (JsNum.num c)) ∧
    (¬ 0 < c → (accumStep a (normalizeSH t).toNums).sellShare = a.sellShare.add (JsNum.num |c|)) := by
  have hzero : (normalizeSH t).CURRENT_AVG_PRICE = JsNum.num 0 := by
    rcases hp with h | h <;> simp [normalizeSH, jsToNum, jsOrZero, h]
  refine ⟨hzero, ?_, ?_, fun hpos => ?_, fun hneg => ?_⟩
  · by_cases hpos : 0 < c <;>
      simp [accumStep, TradingSH.toNums, hc, hzero, JsNum.gtZero, hpos, JsNum.mul,
            JsNum.abs, JsNum.add_num_zero]
  · by_cases hpos : 0 < c <;>
      simp [accumStep, TradingSH.toNums, hc, hzero, JsNum.gtZero, hpos, JsNum.mul,
            JsNum.abs, JsNum.add_num_zero]
  · simp [accumStep, TradingSH.toNums, hc, hzero, JsNum.gtZero, hpos]
  · simp [accumStep, TradingSH.toNums, hc, hzero, JsNum.gtZero, hneg, JsNum.abs]

/-- Witness for `variantB_null_price_zero_contribution` at a record with
a null avg price and +300 shares: price normalizes to 0 and the buy share
total still picks up the 300 shares while buy cost is unchanged. -/
theorem variantB_null_price_zero_contribution_witness :
    (normalizeSH exSH).CURRENT_AVG_PRICE = JsNum.num 0 ∧
    (accumStep accum0 (normalizeSH exSH).toNums).buyCost = accum0.buyCost ∧
    (accumStep accum0 (normalizeSH exSH).toNums).buyShare = accum0.buyShare.add (JsNum.num 300) :=
  ⟨(variantB_null_price_zero_contribution exSH 300 accum0 (Or.inr rfl) rfl).1,
   (variantB_null_price_zero_contribution exSH 300 accum0 (Or.inr rfl) rfl).2.1,
   (variantB_null_price_zero_contribution exSH 300 accum0 (Or.inr rfl) rfl).2.2.2.1
     (by norm_num)⟩

/-- Claim C8: the sign of a numeric `changeShares` is the sole determinant
of buy/sell classification; a zero-share record with a numeric price
leaves all accumulators unchanged; and `summarize([{shares:0, price:5}])`
yields zero buy and sell share totals with both average prices reported as
the not-applicable sentinel. -/
theorem changeNum_sign_classification (a : Accum) (t u v : TradeNums) (p c d : ℚ)
    (h0 : t.CHANGE_NUM = JsNum.num 0) (hp : t.CURRENT_AVG_PRICE = JsNum.num p)
    (hc : u.CHANGE_NUM = JsNum.num c) (hd : v.CHANGE_NUM = JsNum.num d)
    (hsign : 0 < c ↔ 0 < d) :
    accumStep a t = a ∧
    u.CHANGE_NUM.gtZero = v.CHANGE_NUM.gtZero ∧
    calcSummaryRaw [⟨JsNum.num 0, JsNum.num 5⟩] =
      some ⟨JsNum.num 0, JsNum.num 0, none, none, JsNum.num 0, JsNum.num 0,
            JsNum.num 0, JsNum.num 0⟩ ∧
    calcSummary [⟨JsNum.num 0, JsNum.num 5⟩] =
      some ⟨"0", "0", "N/A", "N/A", "0", "0", "0", "0"⟩ := by
  refine ⟨?_, ?_, ?_, ?_⟩
  · have hg : JsNum.gtZero (JsNum.num 0) = false := by decide
    cases a
    simp [accumStep, h0, hp, hg, JsNum.mul, JsNum.abs, JsNum.add_num_zero]
  · rw [hc, hd]
    simp only [JsNum.gtZero]
    exact decide_eq_decide.mpr hsign
  · norm_num [calcSummaryRaw, accumStep, deriveSummary, accum0, JsNum.add, JsNum.mul,
              JsNum.sub, JsNum.abs, JsNum.gtZero, JsNum.div]
  · norm_num [calcSummary, calcSummaryRaw, accumStep, deriveSummary, accum0, JsNum.add,
              JsNum.mul, JsNum.sub, JsNum.abs, JsNum.gtZero, JsNum.div, formatSummary]
    decide

/-- Witness for `changeNum_sign_classification` at a zero-share record
with price 5 and two positive records of different magnitudes. -/
theorem changeNum_sign_classification_witness :
    accumStep accum0 ⟨JsNum.num 0, JsNum.num 5⟩ = accum0 ∧
    (TradeNums.mk (JsNum.num 3) (JsNum.num 1)).CHANGE_NUM.gtZero =
      (TradeNums.mk (JsNum.num 7) (JsNum.num 2)).CHANGE_NUM.gtZero ∧
    calcSummaryRaw [⟨JsNum.num 0, JsNum.num 5⟩] =
      some ⟨JsNum.num 0, JsNum.num 0, none, none, JsNum.num 0, JsNum.num 0,
            JsNum.num 0, JsNum.num 0⟩ ∧
    calcSummary [⟨JsNum.num 0, JsNum.num 5⟩] =
      some ⟨"0", "0", "N/A", "N/A", "0", "0", "0", "0"⟩ :=
  changeNum_sign_classification accum0 ⟨JsNum.num 0, JsNum.num 5⟩ ⟨JsNum.num 3, JsNum.num 1⟩
    ⟨JsNum.num 7, JsNum.num 2⟩ 5 3 7 rfl rfl rfl rfl (by norm_num)

/-- Claim C9 counterexample: a Variant A row whose change-shares cell is
non-numeric parses to a NaN `CHANGE_NUM`, which the Calculator classifies
into the sell bucket and propagates into the aggregates: the sell share
total, sell proceeds, sell average price and both net fields all become
NaN rather than the NaN being excluded from arithmetic. -/
theorem nan_change_num_pollutes_summary :
    (getTradings [rowBad]).map TradingSZ.toNums = [⟨JsNum.nan, JsNum.num 5⟩] ∧
    calcSummaryRaw ((getTradings [rowBad]).map TradingSZ.toNums) =
      some ⟨JsNum.num 0, JsNum.nan, none, some JsNum.nan, JsNum.num 0, JsNum.nan,
            JsNum.nan, JsNum.nan⟩ := by
  decide

/-- Claim C9 (amended): non-numeric content in a numeric cell parses to
NaN; a NaN `HOLDSTOCK_NUM` is displayed as the placeholder and is no input
of aggregation, but a NaN `CHANGE_NUM` is classified as a sell and floods
the sell accumulators with NaN (the buy accumulators stay untouched). -/
theorem nan_cells_propagation (a : Accum) (t : TradeNums) (s : String)
    (hs : jsStrToNum s = JsNum.nan) (hc : t.CHANGE_NUM = JsNum.nan) :
    jsPlusOpt (some s) = JsNum.nan ∧
    displayHoldstock JsNum.nan = "-" ∧
    t.CHANGE_NUM.gtZero = false ∧
    (accumStep a t).buyShare = a.buyShare ∧
    (accumStep a t).buyCost = a.buyCost ∧
    (accumStep a t).sellShare = JsNum.nan ∧
    (accumStep a t).sellProfit = JsNum.nan := by
  refine ⟨hs, rfl, by rw [hc]; rfl, ?_, ?_, ?_, ?_⟩ <;>
    simp [accumStep, hc, JsNum.gtZero, JsNum.abs, JsNum.nan_mul, JsNum.add_nan]

/-- Witness for `nan_cells_propagation` at the cell content "abc" and a
record with NaN shares and price 5. -/
theorem nan_cells_propagation_witness :
    jsPlusOpt (some "abc") = JsNum.nan ∧
    displayHoldstock JsNum.nan = "-" ∧
    (TradeNums.mk JsNum.nan (JsNum.num 5)).CHANGE_NUM.gtZero = false ∧
    (accumStep accum0 ⟨JsNum.nan, JsNum.num 5⟩).buyShare = accum0.buyShare ∧
    (accumStep accum0 ⟨JsNum.nan, JsNum.num 5⟩).buyCost = accum0.buyCost ∧
    (accumStep accum0 ⟨JsNum.nan, JsNum.num 5⟩).sellShare = JsNum.nan ∧
    (accumStep accum0 ⟨JsNum.nan, JsNum.num 5⟩).sellProfit = JsNum.nan :=
  nan_cells_propagation accum0 ⟨JsNum.nan, JsNum.num 5⟩ "abc" (by decide) rfl

/-- Claim C10: after the Variant B normalization `CURRENT_AVG_PRICE` is
always a number (never NaN); null, absent or non-numeric sources become 0;
whereas `CHANGE_NUM` and `HOLDSTOCK_NUM` have no such fallback and become
NaN for non-numeric string sources. -/
theorem variantB_price_never_nan (t : TradingSHRaw) :
    (∃ q : ℚ, (normalizeSH t).CURRENT_AVG_PRICE = JsNum.num q) ∧
    ((t.CURRENT_AVG_PRICE = none ∨ t.CURRENT_AVG_PRICE = some JVal.jnull ∨
        (∃ s, t.CURRENT_AVG_PRICE = some (JVal.jstr s) ∧ jsStrToNum s = JsNum.nan)) →
      (normalizeSH t).CURRENT_AVG_PRICE = JsNum.num 0) ∧
    (∀ s, t.CHANGE_NUM = some (JVal.jstr s) → jsStrToNum s = JsNum.nan →
      (normalizeSH t).CHANGE_NUM = JsNum.nan) ∧
    (∀ s, t.HOLDSTOCK_NUM = some (JVal.jstr s) → jsStrToNum s = JsNum.nan →
      (normalizeSH t).HOLDSTOCK_NUM = JsNum.nan) := by
  refine ⟨?_, ?_, ?_, ?_⟩
  · rcases hj : jsToNum t.CURRENT_AVG_PRICE with q | _
    · exact ⟨q, by simp [normalizeSH, hj, jsOrZero]⟩
    · exact ⟨0, by simp [normalizeSH, hj, jsOrZero]⟩
  · intro h
    rcases h with h | h | ⟨s, hs1, hs2⟩
    · simp [normalizeSH, jsToNum, jsOrZero, h]
    · simp [normalizeSH, jsToNum, jsOrZero, h]
    · simp [normalizeSH, jsToNum, jsOrZero, hs1, hs2]
  · intro s h1 h2
    simp [normalizeSH, jsToNum, h1, h2]
  · intro s h1 h2
    simp [normalizeSH, jsToNum, h1, h2]

/-- Witness for `variantB_price_never_nan` at a record with non-numeric
change and holding counts and an absent avg price. -/
theorem variantB_price_never_nan_witness :
    (normalizeSH exSHbad).CURRENT_AVG_PRICE = JsNum.num 0 ∧
    (normalizeSH exSHbad).CHANGE_NUM = JsNum.nan ∧
    (normalizeSH exSHbad).HOLDSTOCK_NUM = JsNum.nan :=
  ⟨(variantB_price_never_nan exSHbad).2.1 (Or.inl rfl),
   (variantB_price_never_nan exSHbad).2.2.1 "abc" rfl (by decide),
   (variantB_price_never_nan exSHbad).2.2.2 "xy" rfl (by decide)⟩
